import Mathlib

/-!
Shallow embedding of `n3arby/play-integrity-verifier`.

The repository exports one operation, `verifyPlayIntegrity`, in two variants:
the current one in `src/verifier.ts` (keyed by the expected package name,
with payload and package-name cross-checks) and a superseded one in an
unnamed source file (keyed by the request body alone, no checks).  Both are
embedded here as pure functions over an explicit remote-environment oracle;
the outcome records the constructed auth clients and the remote calls issued,
so that "no network call happens" is a statement about the trace.
-/

/-- JavaScript values that can be thrown: either an `Error` object carrying a
message, or any other value (whose content the catch blocks never read). -/
inductive JSValue where
  | errorObj (message : String)
  | nonError (v : String)
deriving DecidableEq, Repr

/-- `PlayIntegrityCredentials` from `src/verifier.ts`. -/
structure PlayIntegrityCredentials where
  clientEmail : String
  privateKey : String
deriving DecidableEq, Repr

/-- `requestDetails` group of `PlayIntegrityResponse`. -/
structure RequestDetails where
  requestPackageName : Option String
  timestampMillis : Option String
  nonce : Option String
deriving DecidableEq, Repr

/-- `appIntegrity` group of `PlayIntegrityResponse`. -/
structure AppIntegrity where
  appRecognitionVerdict : Option String
  packageName : Option String
  certificateSha256Digest : Option (List String)
  versionCode : Option String
deriving DecidableEq, Repr

/-- `deviceIntegrity` group of `PlayIntegrityResponse`. -/
structure DeviceIntegrity where
  deviceRecognitionVerdict : Option (List String)
deriving DecidableEq, Repr

/-- `accountDetails` group of `PlayIntegrityResponse`. -/
structure AccountDetails where
  appLicensingVerdict : Option String
deriving DecidableEq, Repr

/-- `PlayIntegrityResponse` from `src/verifier.ts` (identical in both
variants): four optional groups. -/
structure PlayIntegrityResponse where
  requestDetails : Option RequestDetails
  appIntegrity : Option AppIntegrity
  deviceIntegrity : Option DeviceIntegrity
  accountDetails : Option AccountDetails
deriving DecidableEq, Repr

/-- The `GoogleAuth` construction arguments (lines 48-54 of
`src/verifier.ts`): credentials plus the requested scopes. -/
structure AuthConfig where
  client_email : String
  private_key : String
  scopes : List String
deriving DecidableEq, Repr

/-- The argument object of `playIntegrity.v1.decodeIntegrityToken`
(lines 62-67): the routing `packageName` and the request body's
`integrityToken`. -/
structure DecodeRequest where
  packageName : String
  integrityToken : String
deriving DecidableEq, Repr

/-- `response.data` of the decode call: the optional
`tokenPayloadExternal` field. -/
structure DecodeResponseData where
  tokenPayloadExternal : Option PlayIntegrityResponse
deriving DecidableEq, Repr

/-- The remote collaborator for the current variant: what
`decodeIntegrityToken` does for a given request (either throws a JS value
or returns response data). -/
structure RemoteEnv where
  decodeIntegrityToken : DecodeRequest → Except JSValue DecodeResponseData

deriving instance DecidableEq for Except

/-- Overall outcome of a `verifyPlayIntegrity` call: the settled promise
(error message or payload) plus the trace of auth-client constructions and
remote decode calls. -/
structure VerifyOutcome where
  result : Except String PlayIntegrityResponse
  authCalls : List AuthConfig
  decodeCalls : List DecodeRequest
deriving DecidableEq, Repr

/-- JS `String.prototype.trim`: the string with leading and trailing
whitespace removed. -/
def jsTrim (s : String) : String :=
  String.mk (((s.data.dropWhile Char.isWhitespace).reverse.dropWhile
    Char.isWhitespace).reverse)

/-- The catch block of `src/verifier.ts` (lines 85-90): an `Error` is
re-wrapped with the fixed failure text plus its message; any other thrown
value becomes the fixed text plus `Unknown error`. -/
def wrapThrown : JSValue → String
  | .errorObj m => "Play Integrity verification failed: " ++ m
  | .nonError _ => "Play Integrity verification failed: " ++ "Unknown error"

/-- The `GoogleAuth` config built at lines 48-54: the caller's credentials
and the single Play Integrity scope. -/
def authConfigOf (c : PlayIntegrityCredentials) : AuthConfig :=
  { client_email := c.clientEmail
    private_key := c.privateKey
    scopes := ["https://www.googleapis.com/auth/playintegrity"] }

/-- The decode request built at lines 62-67: the expected package name as
routing parameter, the token as body. -/
def decodeRequestOf (token expectedPackageName : String) : DecodeRequest :=
  { packageName := expectedPackageName, integrityToken := token }

/-- Lines 80-82: the request-details cross-check.  The JS condition
`result.requestDetails?.requestPackageName && ... !== expectedPackageName`
is truthy only when the field is present, non-empty and different. -/
def requestNameCheck (expectedPackageName : String)
    (result : PlayIntegrityResponse) : Except JSValue PlayIntegrityResponse :=
  match result.requestDetails.bind RequestDetails.requestPackageName with
  | some p =>
      if p ≠ "" ∧ p ≠ expectedPackageName then
        .error (.errorObj ("Request package name mismatch: expected " ++
          expectedPackageName ++ ", got " ++ p))
      else .ok result
  | none => .ok result

/-- Lines 76-82: the app-integrity cross-check followed by the
request-details cross-check, in source order. -/
def packageNameCheck (expectedPackageName : String)
    (result : PlayIntegrityResponse) : Except JSValue PlayIntegrityResponse :=
  match result.appIntegrity.bind AppIntegrity.packageName with
  | some p =>
      if p ≠ "" ∧ p ≠ expectedPackageName then
        .error (.errorObj ("Package name mismatch: expected " ++
          expectedPackageName ++ ", got " ++ p))
      else requestNameCheck expectedPackageName result
  | none => requestNameCheck expectedPackageName result

/-- `verifyPlayIntegrity` from `src/verifier.ts`, lines 36-91.  The JS guard
`!expectedPackageName || expectedPackageName.trim() === ''` is the
disjunction below; every thrown value is wrapped once by the catch block
(`wrapThrown`). -/
def verifyPlayIntegrity (token : String) (credentials : PlayIntegrityCredentials)
    (expectedPackageName : String) (env : RemoteEnv) : VerifyOutcome :=
  if expectedPackageName = "" ∨ jsTrim expectedPackageName = "" then
    { result := .error (wrapThrown (.errorObj "Expected package name is required"))
      authCalls := []
      decodeCalls := [] }
  else
    match env.decodeIntegrityToken (decodeRequestOf token expectedPackageName) with
    | .error e =>
        { result := .error (wrapThrown e)
          authCalls := [authConfigOf credentials]
          decodeCalls := [decodeRequestOf token expectedPackageName] }
    | .ok data =>
        match data.tokenPayloadExternal with
        | none =>
            { result := .error (wrapThrown
                (.errorObj "No token payload received from Play Integrity API"))
              authCalls := [authConfigOf credentials]
              decodeCalls := [decodeRequestOf token expectedPackageName] }
        | some result =>
            { result := (packageNameCheck expectedPackageName result).mapError wrapThrown
              authCalls := [authConfigOf credentials]
              decodeCalls := [decodeRequestOf token expectedPackageName] }

/-- The `JWT` construction arguments of the superseded variant
(`src/unnamed/part_000`, lines 12-16): email, key and scopes. -/
structure JWTConfig where
  email : String
  key : String
  scopes : List String
deriving DecidableEq, Repr

/-- The token object returned by `jwtClient.authorize()`; `access_token`
may be absent. -/
structure TokenSet where
  access_token : Option String
deriving DecidableEq, Repr

/-- The request body the superseded variant posts to the decode endpoint:
only the integrity token — it carries no package name at all. -/
structure OldPostBody where
  integrityToken : String
deriving DecidableEq, Repr

/-- One `axios.post` call of the superseded variant: URL, body and the
bearer authorization header. -/
structure OldPostCall where
  url : String
  body : OldPostBody
  authorizationHeader : String
deriving DecidableEq, Repr

/-- Outcome of the `axios.post` call: success with the optional
`tokenPayloadExternal` field, an axios error (with its optional
`response.data.error.message` and its own `message`), or any other thrown
value. -/
inductive PostResult where
  | success (tokenPayloadExternal : Option PlayIntegrityResponse)
  | axiosFailure (respMessage : Option String) (message : String)
  | otherThrown (v : JSValue)
deriving DecidableEq, Repr

/-- The remote collaborators of the superseded variant: the credential
exchange (`authorize`, which may throw) and the decode post. -/
structure OldRemoteEnv where
  authorize : JWTConfig → Except JSValue TokenSet
  post : OldPostCall → PostResult

/-- Outcome of the superseded `verifyPlayIntegrity`: note the result
payload is optional, because the code returns `tokenPayloadExternal`
without checking its presence. -/
structure OldVerifyOutcome where
  result : Except String (Option PlayIntegrityResponse)
  authorizeCalls : List JWTConfig
  postCalls : List OldPostCall
deriving DecidableEq, Repr

/-- The `JWT` config built by the superseded variant: credentials plus the
same single Play Integrity scope. -/
def jwtConfigOf (c : PlayIntegrityCredentials) : JWTConfig :=
  { email := c.clientEmail
    key := c.privateKey
    scopes := ["https://www.googleapis.com/auth/playintegrity"] }

/-- The fixed decode endpoint URL used by the superseded variant. -/
def decodeUrl : String :=
  "https://playintegrity.googleapis.com/v1:decodeIntegrityToken"

/-- JS `a || b` over an optional string `a`: the string when present and
non-empty, otherwise `b`. -/
def jsStringOr (a : Option String) (b : String) : String :=
  match a with
  | some m => if m = "" then b else m
  | none => b

/-- `verifyPlayIntegrity` from `src/unnamed/part_000`, lines 34-72: JWT
authorize, guard on a falsy `access_token`, post the token alone, return
`tokenPayloadExternal` with no payload or package-name checks.  Axios
errors prefer `response.data.error.message` over the error's own message
(JS `||`). -/
def verifyPlayIntegrityOld (token : String)
    (credentials : PlayIntegrityCredentials) (env : OldRemoteEnv) :
    OldVerifyOutcome :=
  match env.authorize (jwtConfigOf credentials) with
  | .error e =>
      { result := .error (wrapThrown e)
        authorizeCalls := [jwtConfigOf credentials]
        postCalls := [] }
  | .ok tokens =>
      if tokens.access_token = none ∨ tokens.access_token = some "" then
        { result := .error (wrapThrown (.errorObj "Failed to obtain access token"))
          authorizeCalls := [jwtConfigOf credentials]
          postCalls := [] }
      else
        match env.post { url := decodeUrl
                         body := { integrityToken := token }
                         authorizationHeader :=
                           "Bearer " ++ (tokens.access_token.getD "") } with
        | .success payload =>
            { result := .ok payload
              authorizeCalls := [jwtConfigOf credentials]
              postCalls := [{ url := decodeUrl
                              body := { integrityToken := token }
                              authorizationHeader :=
                                "Bearer " ++ (tokens.access_token.getD "") }] }
        | .axiosFailure respMessage message =>
            { result := .error ("Play Integrity verification failed: " ++
                jsStringOr respMessage message)
              authorizeCalls := [jwtConfigOf credentials]
              postCalls := [{ url := decodeUrl
                              body := { integrityToken := token }
                              authorizationHeader :=
                                "Bearer " ++ (tokens.access_token.getD "") }] }
        | .otherThrown v =>
            { result := .error (wrapThrown v)
              authorizeCalls := [jwtConfigOf credentials]
              postCalls := [{ url := decodeUrl
                              body := { integrityToken := token }
                              authorizationHeader :=
                                "Bearer " ++ (tokens.access_token.getD "") }] }

/-- Sample service-account credentials used by the concrete witnesses. -/
def sampleCreds : PlayIntegrityCredentials :=
  { clientEmail := "svc@example.iam.gserviceaccount.com"
    privateKey := "PEM-KEY" }

/-- A payload whose app-integrity package name is `com.other.app`: the
mismatch scenario of the spec. -/
def payloadOtherApp : PlayIntegrityResponse :=
  { requestDetails := none
    appIntegrity := some
      { appRecognitionVerdict := some "PLAY_RECOGNIZED"
        packageName := some "com.other.app"
        certificateSha256Digest := none
        versionCode := none }
    deviceIntegrity := none
    accountDetails := none }

/-- A payload whose request-details package name is `com.other.app` while
the app-integrity group is absent. -/
def payloadOtherRequest : PlayIntegrityResponse :=
  { requestDetails := some
      { requestPackageName := some "com.other.app"
        timestampMillis := some "123"
        nonce := none }
    appIntegrity := none
    deviceIntegrity := none
    accountDetails := none }

/-- A payload with no identifier fields at all. -/
def payloadPlain : PlayIntegrityResponse :=
  { requestDetails := none
    appIntegrity := some
      { appRecognitionVerdict := some "PLAY_RECOGNIZED"
        packageName := none
        certificateSha256Digest := none
        versionCode := none }
    deviceIntegrity := none
    accountDetails := none }

/-- A payload whose two package-name fields are both the empty string. -/
def payloadEmptyNames : PlayIntegrityResponse :=
  { requestDetails := some
      { requestPackageName := some ""
        timestampMillis := none
        nonce := none }
    appIntegrity := some
      { appRecognitionVerdict := some "PLAY_RECOGNIZED"
        packageName := some ""
        certificateSha256Digest := none
        versionCode := none }
    deviceIntegrity := none
    accountDetails := none }

/-- A remote environment answering every decode call with the given
response data. -/
def constEnv (d : DecodeResponseData) : RemoteEnv :=
  { decodeIntegrityToken := fun _ => .ok d }

/-- A remote environment whose decode call throws the given value. -/
def throwEnv (e : JSValue) : RemoteEnv :=
  { decodeIntegrityToken := fun _ => .error e }

/-- An old-variant environment that authorizes with the access token `tok`
and answers every post with the given payload. -/
def oldOkEnv (p : Option PlayIntegrityResponse) : OldRemoteEnv :=
  { authorize := fun _ => .ok { access_token := some "tok" }
    post := fun _ => .success p }

/-- Heads of char lists are preserved by appending on the right. -/
theorem head_of_append (l1 l2 : List Char) (c : Char) (h : l1.head? = some c) :
    (l1 ++ l2).head? = some c := by
  cases l1 <;> simp_all

/-- String append is left-cancellative. -/
theorem string_append_cancel_left (a b c : String) (h : a ++ b = a ++ c) :
    b = c := by
  have hd := congrArg String.data h
  simp only [String.data_append] at hd
  have h2 := List.append_cancel_left hd
  cases b
  cases c
  exact congrArg String.mk h2

/-- The payload-missing cause text is no app-integrity mismatch text,
whatever the identifiers: their first characters differ. -/
theorem noPayload_ne_appMismatch (e g : String) :
    ("No token payload received from Play Integrity API" : String) ≠
      "Package name mismatch: expected " ++ e ++ ", got " ++ g := by
  intro h
  have hd := congrArg (fun s => s.data.head?) h
  simp only [String.data_append] at hd
  rw [head_of_append _ _ 'P' (head_of_append _ _ 'P'
    (head_of_append _ _ 'P' (by decide)))] at hd
  exact absurd hd (by decide)

/-- The payload-missing cause text is no request-details mismatch text,
whatever the identifiers. -/
theorem noPayload_ne_requestMismatch (e g : String) :
    ("No token payload received from Play Integrity API" : String) ≠
      "Request package name mismatch: expected " ++ e ++ ", got " ++ g := by
  intro h
  have hd := congrArg (fun s => s.data.head?) h
  simp only [String.data_append] at hd
  rw [head_of_append _ _ 'R' (head_of_append _ _ 'R'
    (head_of_append _ _ 'R' (by decide)))] at hd
  exact absurd hd (by decide)

/-- Both cross-checks pass when each present package name is empty or
equals the expected one, and then the payload is returned unchanged. -/
theorem packageNameCheck_ok (expectedPackageName : String)
    (payload : PlayIntegrityResponse)
    (happ : ∀ q, payload.appIntegrity.bind AppIntegrity.packageName = some q →
      q = "" ∨ q = expectedPackageName)
    (hreq : ∀ q, payload.requestDetails.bind RequestDetails.requestPackageName = some q →
      q = "" ∨ q = expectedPackageName) :
    packageNameCheck expectedPackageName payload = .ok payload := by
  have hr : requestNameCheck expectedPackageName payload = .ok payload := by
    cases hq : payload.requestDetails.bind RequestDetails.requestPackageName with
    | none => simp [requestNameCheck, hq]
    | some q => rcases hreq q hq with h | h <;> simp [requestNameCheck, hq, h]
  cases hq : payload.appIntegrity.bind AppIntegrity.packageName with
  | none => simp [packageNameCheck, hq, hr]
  | some q => rcases happ q hq with h | h <;> simp [packageNameCheck, hq, h, hr]

/-- C1: whenever the remote decode succeeds with a payload whose
app-integrity package name is present (non-empty, per JS truthiness) and
differs from the expected package name, `verifyPlayIntegrity` fails with a
package-mismatch message carrying the expected and actual values. -/
theorem C1_app_package_mismatch (token : String)
    (credentials : PlayIntegrityCredentials) (expectedPackageName p : String)
    (env : RemoteEnv) (payload : PlayIntegrityResponse)
    (hpre : ¬ (expectedPackageName = "" ∨ jsTrim expectedPackageName = ""))
    (henv : env.decodeIntegrityToken (decodeRequestOf token expectedPackageName) =
      .ok { tokenPayloadExternal := some payload })
    (happ : payload.appIntegrity.bind AppIntegrity.packageName = some p)
    (hp : p ≠ "") (hne : p ≠ expectedPackageName) :
    (verifyPlayIntegrity token credentials expectedPackageName env).result =
      .error ("Play Integrity verification failed: " ++
        ("Package name mismatch: expected " ++ expectedPackageName ++ ", got " ++ p)) := by
  unfold verifyPlayIntegrity
  rw [if_neg hpre, henv]
  simp [packageNameCheck, happ, hp, hne, wrapThrown, Except.mapError]

/-- Witness for C1: the spec's mismatch scenario with expected
`com.example.app` and returned `com.other.app`. -/
theorem C1_app_package_mismatch_witness :
    (verifyPlayIntegrity "T1" sampleCreds "com.example.app"
      (constEnv { tokenPayloadExternal := some payloadOtherApp })).result =
      .error ("Play Integrity verification failed: " ++
        ("Package name mismatch: expected " ++ "com.example.app" ++ ", got " ++ "com.other.app")) :=
  C1_app_package_mismatch "T1" sampleCreds "com.example.app" "com.other.app" _
    payloadOtherApp (by decide) rfl rfl (by decide) (by decide)

/-- C2: for an empty or whitespace-only expected package name,
`verifyPlayIntegrity` fails with the required-identifier error and the
auth-client and decode-call traces are both empty — no collaborator is
ever invoked. -/
theorem C2_empty_expected_no_network (token : String)
    (credentials : PlayIntegrityCredentials) (expectedPackageName : String)
    (env : RemoteEnv)
    (h : expectedPackageName = "" ∨ jsTrim expectedPackageName = "") :
    verifyPlayIntegrity token credentials expectedPackageName env =
      { result := .error ("Play Integrity verification failed: " ++
          "Expected package name is required")
        authCalls := []
        decodeCalls := [] } := by
  unfold verifyPlayIntegrity
  rw [if_pos h]
  rfl

/-- Witness for C2: a whitespace-only expected package name. -/
theorem C2_empty_expected_no_network_witness :
    verifyPlayIntegrity "T1" sampleCreds "  "
      (constEnv { tokenPayloadExternal := some payloadPlain }) =
      { result := .error ("Play Integrity verification failed: " ++
          "Expected package name is required")
        authCalls := []
        decodeCalls := [] } :=
  C2_empty_expected_no_network "T1" sampleCreds "  " _ (by decide)

/-- C3: whenever the remote decode succeeds with a payload whose
request-details package name is present (non-empty) and differs from the
expected one, `verifyPlayIntegrity` fails with a mismatch message carrying
both values — independently of the app-integrity field, which may be
absent, empty or matching. -/
theorem C3_request_package_mismatch (token : String)
    (credentials : PlayIntegrityCredentials) (expectedPackageName q : String)
    (env : RemoteEnv) (payload : PlayIntegrityResponse)
    (hpre : ¬ (expectedPackageName = "" ∨ jsTrim expectedPackageName = ""))
    (henv : env.decodeIntegrityToken (decodeRequestOf token expectedPackageName) =
      .ok { tokenPayloadExternal := some payload })
    (happ : ∀ p, payload.appIntegrity.bind AppIntegrity.packageName = some p →
      p = "" ∨ p = expectedPackageName)
    (hreq : payload.requestDetails.bind RequestDetails.requestPackageName = some q)
    (hq : q ≠ "") (hne : q ≠ expectedPackageName) :
    (verifyPlayIntegrity token credentials expectedPackageName env).result =
      .error ("Play Integrity verification failed: " ++
        ("Request package name mismatch: expected " ++ expectedPackageName ++ ", got " ++ q)) := by
  unfold verifyPlayIntegrity
  rw [if_neg hpre, henv]
  have hr : requestNameCheck expectedPackageName payload =
      .error (.errorObj ("Request package name mismatch: expected " ++
        expectedPackageName ++ ", got " ++ q)) := by
    simp [requestNameCheck, hreq, hq, hne]
  cases ha : payload.appIntegrity.bind AppIntegrity.packageName with
  | none => simp [packageNameCheck, ha, hr, wrapThrown, Except.mapError]
  | some p =>
      rcases happ p ha with h | h <;>
        simp [packageNameCheck, ha, h, hr, wrapThrown, Except.mapError]

/-- Witness for C3: request-details name `com.other.app` with the
app-integrity group absent. -/
theorem C3_request_package_mismatch_witness :
    (verifyPlayIntegrity "T1" sampleCreds "com.example.app"
      (constEnv { tokenPayloadExternal := some payloadOtherRequest })).result =
      .error ("Play Integrity verification failed: " ++
        ("Request package name mismatch: expected " ++ "com.example.app" ++ ", got " ++ "com.other.app")) :=
  C3_request_package_mismatch "T1" sampleCreds "com.example.app" "com.other.app" _
    payloadOtherRequest (by decide) rfl (by intro p hp; cases hp) rfl
    (by decide) (by decide)

/-- C4: a successful remote call whose `tokenPayloadExternal` field is
absent makes `verifyPlayIntegrity` fail with the payload-missing message,
and that message differs from every app-integrity and request-details
mismatch message. -/
theorem C4_no_payload_error (token : String)
    (credentials : PlayIntegrityCredentials) (expectedPackageName : String)
    (env : RemoteEnv)
    (hpre : ¬ (expectedPackageName = "" ∨ jsTrim expectedPackageName = ""))
    (henv : env.decodeIntegrityToken (decodeRequestOf token expectedPackageName) =
      .ok { tokenPayloadExternal := none }) :
    (verifyPlayIntegrity token credentials expectedPackageName env).result =
      .error ("Play Integrity verification failed: " ++
        "No token payload received from Play Integrity API") ∧
    (∀ e g : String,
      ("Play Integrity verification failed: " ++
        "No token payload received from Play Integrity API" : String) ≠
      "Play Integrity verification failed: " ++
        ("Package name mismatch: expected " ++ e ++ ", got " ++ g)) ∧
    (∀ e g : String,
      ("Play Integrity verification failed: " ++
        "No token payload received from Play Integrity API" : String) ≠
      "Play Integrity verification failed: " ++
        ("Request package name mismatch: expected " ++ e ++ ", got " ++ g)) := by
  refine ⟨?_, ?_, ?_⟩
  · unfold verifyPlayIntegrity
    rw [if_neg hpre, henv]
    rfl
  · intro e g h
    exact noPayload_ne_appMismatch e g (string_append_cancel_left _ _ _ h)
  · intro e g h
    exact noPayload_ne_requestMismatch e g (string_append_cancel_left _ _ _ h)

/-- Witness for C4: a successful response with no payload field. -/
theorem C4_no_payload_error_witness :
    (verifyPlayIntegrity "T1" sampleCreds "com.example.app"
      (constEnv { tokenPayloadExternal := none })).result =
      .error ("Play Integrity verification failed: " ++
        "No token payload received from Play Integrity API") ∧
    (∀ e g : String,
      ("Play Integrity verification failed: " ++
        "No token payload received from Play Integrity API" : String) ≠
      "Play Integrity verification failed: " ++
        ("Package name mismatch: expected " ++ e ++ ", got " ++ g)) ∧
    (∀ e g : String,
      ("Play Integrity verification failed: " ++
        "No token payload received from Play Integrity API" : String) ≠
      "Play Integrity verification failed: " ++
        ("Request package name mismatch: expected " ++ e ++ ", got " ++ g)) :=
  C4_no_payload_error "T1" sampleCreds "com.example.app" _ (by decide) rfl

/-- C5: whenever the remote decode succeeds with a payload and every
present package-name field is empty or equal to the expected one, the
exact payload value is returned, unchanged. -/
theorem C5_success_returns_payload (token : String)
    (credentials : PlayIntegrityCredentials) (expectedPackageName : String)
    (env : RemoteEnv) (payload : PlayIntegrityResponse)
    (hpre : ¬ (expectedPackageName = "" ∨ jsTrim expectedPackageName = ""))
    (henv : env.decodeIntegrityToken (decodeRequestOf token expectedPackageName) =
      .ok { tokenPayloadExternal := some payload })
    (happ : ∀ p, payload.appIntegrity.bind AppIntegrity.packageName = some p →
      p = "" ∨ p = expectedPackageName)
    (hreq : ∀ p, payload.requestDetails.bind RequestDetails.requestPackageName = some p →
      p = "" ∨ p = expectedPackageName) :
    (verifyPlayIntegrity token credentials expectedPackageName env).result =
      .ok payload := by
  unfold verifyPlayIntegrity
  rw [if_neg hpre, henv]
  simp [packageNameCheck_ok expectedPackageName payload happ hreq, Except.mapError]

/-- Witness for C5: a verdict payload without identifier fields is
returned as-is. -/
theorem C5_success_returns_payload_witness :
    (verifyPlayIntegrity "T1" sampleCreds "com.example.app"
      (constEnv { tokenPayloadExternal := some payloadPlain })).result =
      .ok payloadPlain :=
  C5_success_returns_payload "T1" sampleCreds "com.example.app" _ payloadPlain
    (by decide) rfl (by intro p hp; cases hp) (by intro p hp; cases hp)

/-- C6: on every input and remote behaviour, `verifyPlayIntegrity` either
resolves with a payload or fails with a single message that is the fixed
text `Play Integrity verification failed: ` followed by a cause — never a
partial result. -/
theorem C6_all_failures_wrapped (token : String)
    (credentials : PlayIntegrityCredentials) (expectedPackageName : String)
    (env : RemoteEnv) :
    (∃ r, (verifyPlayIntegrity token credentials expectedPackageName env).result = .ok r) ∨
    (∃ cause, (verifyPlayIntegrity token credentials expectedPackageName env).result =
      .error ("Play Integrity verification failed: " ++ cause)) := by
  have hw : ∀ e : JSValue, ∃ c, wrapThrown e = "Play Integrity verification failed: " ++ c := by
    intro e
    cases e with
    | errorObj m => exact ⟨m, rfl⟩
    | nonError v => exact ⟨"Unknown error", rfl⟩
  unfold verifyPlayIntegrity
  by_cases hpre : expectedPackageName = "" ∨ jsTrim expectedPackageName = ""
  · rw [if_pos hpre]
    exact .inr ⟨"Expected package name is required", rfl⟩
  · rw [if_neg hpre]
    cases henv : env.decodeIntegrityToken (decodeRequestOf token expectedPackageName) with
    | error e =>
        obtain ⟨c, hc⟩ := hw e
        exact .inr ⟨c, by simp [hc]⟩
    | ok data =>
        cases hdp : data.tokenPayloadExternal with
        | none =>
            exact .inr ⟨"No token payload received from Play Integrity API",
              by simp [hdp, wrapThrown]⟩
        | some r =>
            cases hc : packageNameCheck expectedPackageName r with
            | ok v => exact .inl ⟨v, by simp [hdp, hc, Except.mapError]⟩
            | error e =>
                obtain ⟨c, hcw⟩ := hw e
                exact .inr ⟨c, by simp [hdp, hc, hcw, Except.mapError]⟩

/-- C7: the two source variants are not equivalent.  On the same remote
payload whose app-integrity package name is `com.other.app`, the
superseded variant resolves (it performs no cross-check and no payload
check) while the current variant fails with the mismatch error; the
superseded variant's decode request body moreover consists of the
integrity token alone — the expected identifier appears nowhere in it, as
the `OldPostBody` shape records. -/
theorem C7_variants_not_equivalent :
    (verifyPlayIntegrityOld "T1" sampleCreds (oldOkEnv (some payloadOtherApp))).result =
      .ok (some payloadOtherApp) ∧
    (verifyPlayIntegrity "T1" sampleCreds "com.example.app"
      (constEnv { tokenPayloadExternal := some payloadOtherApp })).result =
      .error ("Play Integrity verification failed: " ++
        ("Package name mismatch: expected " ++ "com.example.app" ++ ", got " ++ "com.other.app")) ∧
    (verifyPlayIntegrityOld "T1" sampleCreds (oldOkEnv (some payloadOtherApp))).postCalls =
      [{ url := decodeUrl
         body := { integrityToken := "T1" }
         authorizationHeader := "Bearer " ++ "tok" }] :=
  ⟨by decide, by decide, by decide⟩

/-- C8: past the precondition, the auth client is always constructed with
exactly the single Play Integrity scope, and the single decode call
carries the expected package name as routing parameter and the token as
body. -/
theorem C8_single_scope_and_request (token : String)
    (credentials : PlayIntegrityCredentials) (expectedPackageName : String)
    (env : RemoteEnv)
    (hpre : ¬ (expectedPackageName = "" ∨ jsTrim expectedPackageName = "")) :
    (verifyPlayIntegrity token credentials expectedPackageName env).authCalls =
      [{ client_email := credentials.clientEmail
         private_key := credentials.privateKey
         scopes := ["https://www.googleapis.com/auth/playintegrity"] }] ∧
    (verifyPlayIntegrity token credentials expectedPackageName env).decodeCalls =
      [{ packageName := expectedPackageName, integrityToken := token }] := by
  unfold verifyPlayIntegrity
  rw [if_neg hpre]
  cases env.decodeIntegrityToken (decodeRequestOf token expectedPackageName) with
  | error e => exact ⟨rfl, rfl⟩
  | ok data =>
      obtain ⟨tpe⟩ := data
      cases tpe <;> exact ⟨rfl, rfl⟩

/-- Witness for C8 at a concrete call. -/
theorem C8_single_scope_and_request_witness :
    (verifyPlayIntegrity "T1" sampleCreds "com.example.app"
      (constEnv { tokenPayloadExternal := some payloadPlain })).authCalls =
      [{ client_email := sampleCreds.clientEmail
         private_key := sampleCreds.privateKey
         scopes := ["https://www.googleapis.com/auth/playintegrity"] }] ∧
    (verifyPlayIntegrity "T1" sampleCreds "com.example.app"
      (constEnv { tokenPayloadExternal := some payloadPlain })).decodeCalls =
      [{ packageName := "com.example.app", integrityToken := "T1" }] :=
  C8_single_scope_and_request "T1" sampleCreds "com.example.app" _ (by decide)

/-- C9: empty-string package-name fields are falsy in JS, so both
cross-checks are skipped and the call succeeds, although the empty string
differs from the non-empty expected package name. -/
theorem C9_empty_identifier_skipped (token : String)
    (credentials : PlayIntegrityCredentials) (expectedPackageName : String)
    (env : RemoteEnv) (payload : PlayIntegrityResponse)
    (hpre : ¬ (expectedPackageName = "" ∨ jsTrim expectedPackageName = ""))
    (henv : env.decodeIntegrityToken (decodeRequestOf token expectedPackageName) =
      .ok { tokenPayloadExternal := some payload })
    (happ : payload.appIntegrity.bind AppIntegrity.packageName = some "")
    (hreq : payload.requestDetails.bind RequestDetails.requestPackageName = some "") :
    (verifyPlayIntegrity token credentials expectedPackageName env).result =
      .ok payload ∧ "" ≠ expectedPackageName := by
  constructor
  · unfold verifyPlayIntegrity
    rw [if_neg hpre, henv]
    have hok := packageNameCheck_ok expectedPackageName payload
      (by intro q hq; rw [happ] at hq; exact .inl (Option.some.inj hq).symm)
      (by intro q hq; rw [hreq] at hq; exact .inl (Option.some.inj hq).symm)
    simp [hok, Except.mapError]
  · intro h
    exact hpre (.inl h.symm)

/-- Witness for C9: both package-name fields are the empty string. -/
theorem C9_empty_identifier_skipped_witness :
    (verifyPlayIntegrity "T1" sampleCreds "com.example.app"
      (constEnv { tokenPayloadExternal := some payloadEmptyNames })).result =
      .ok payloadEmptyNames ∧ "" ≠ "com.example.app" :=
  C9_empty_identifier_skipped "T1" sampleCreds "com.example.app" _ payloadEmptyNames
    (by decide) rfl rfl rfl

/-- C10: when the decode call throws a value that is not an `Error`
object, the resulting message is exactly the fixed text plus
`Unknown error`, regardless of the thrown value's content. -/
theorem C10_non_error_thrown_unknown (token : String)
    (credentials : PlayIntegrityCredentials) (expectedPackageName : String)
    (env : RemoteEnv) (v : String)
    (hpre : ¬ (expectedPackageName = "" ∨ jsTrim expectedPackageName = ""))
    (henv : env.decodeIntegrityToken (decodeRequestOf token expectedPackageName) =
      .error (.nonError v)) :
    (verifyPlayIntegrity token credentials expectedPackageName env).result =
      .error ("Play Integrity verification failed: " ++ "Unknown error") := by
  unfold verifyPlayIntegrity
  rw [if_neg hpre, henv]
  rfl

/-- Witness for C10: a thrown plain string. -/
theorem C10_non_error_thrown_unknown_witness :
    (verifyPlayIntegrity "T1" sampleCreds "com.example.app"
      (throwEnv (.nonError "thrown-string-42"))).result =
      .error ("Play Integrity verification failed: " ++ "Unknown error") :=
  C10_non_error_thrown_unknown "T1" sampleCreds "com.example.app" _ "thrown-string-42"
    (by decide) rfl
